import Mathlib

/-!
Shallow embedding of the CoinStats gateway (src/main.py).

The embedded core is the request-forwarding and quota-enforcement layer:

* the `track_requests` HTTP middleware (quota tracker + gateway admission),
  modelled as a pure step function on an explicit `QuotaState`, with the
  wall-clock time `time.time()` passed in as a `Nat` parameter `now`
  (the Python code calls `time.time()` twice in the reset branch; the two
  reads are modelled as the same instant `now`);
* the `home` status endpoint, modelled as a pure function returning its
  response together with the (unchanged) quota state;
* the `fetch_from_coinstats` helper, modelled as a function of the method
  string and of the raw outcome of the single network attempt
  (`NetResult`): the three `requests.get/post/patch` branches share one
  status-code translation, embedded as `translateStatus`; the `except` clause
  catches only `requests.RequestException`, so the `ValueError` raised for
  an unsupported method escapes uncaught and is a distinct constructor.

Machine details: Python floats for timestamps are modelled as `Nat`
seconds (the comparison `now - last_reset > 2592000` agrees with the
Python one on all non-negative clocks, including `now < last_reset`,
where both sides evaluate the condition to false); Python `str.upper`
on the ASCII method names is modelled with `Char.toUpper`; Python
slicing `text[:200]` is by code point, modelled by `strTake`.
-/

/-- `REQUEST_LIMIT = 950000` (src/main.py line 30). -/
def REQUEST_LIMIT : Nat := 950000

/-- The reset window: 30 days = 2592000 seconds (src/main.py line 37). -/
def RESET_WINDOW : Nat := 2592000

/-- The process-global mutable quota data: `request_count` (line 28) and
`last_reset` (line 29). -/
structure QuotaState where
  request_count : Nat
  last_reset : Nat
deriving DecidableEq

/-- Python `str.startswith` for a single candidate, by code points. -/
def strStartsWith (s pre : String) : Bool :=
  pre.toList.isPrefixOf s.toList

/-- The allowlist test of src/main.py line 42:
`request.url.path.startswith(("/docs", "/openapi.json", "/redoc", "/favicon.ico", "/"))`.
Note that the final candidate `"/"` matches every path that starts with a
slash. -/
def isExempt (path : String) : Bool :=
  strStartsWith path "/docs" || strStartsWith path "/openapi.json" ||
    strStartsWith path "/redoc" || strStartsWith path "/favicon.ico" ||
    strStartsWith path "/"

/-- Outcome of one pass through the middleware: either the early-return
429 payload of lines 47-50 (no `call_next`, hence no upstream work), or
the request was forwarded to `call_next` (line 52). -/
inductive MiddlewareResult where
  | limited (statusCode : Nat) (detail : String)
  | forwarded
deriving DecidableEq

/-- The fixed detail text of the local 429 (src/main.py line 49). -/
def limitMessage : String :=
  "Monthly request limit reached. Please try again next month."

/-- The monthly reset check of src/main.py lines 37-39: strictly more than
`RESET_WINDOW` seconds elapsed zeroes the counter and bumps the epoch. -/
def resetIfDue (s : QuotaState) (now : Nat) : QuotaState :=
  if now - s.last_reset > RESET_WINDOW then ⟨0, now⟩ else s

/-- The `track_requests` middleware (src/main.py lines 33-53) as a step
function: reset check first (lines 37-39, for every path); then, for
non-exempt paths, increment the counter (line 43) and early-return the
429 payload when the incremented counter exceeds `REQUEST_LIMIT`
(lines 46-50); otherwise forward to `call_next` (line 52). -/
def track_requests (s : QuotaState) (now : Nat) (path : String) :
    MiddlewareResult × QuotaState :=
  if isExempt path then
    (MiddlewareResult.forwarded, resetIfDue s now)
  else if (resetIfDue s now).request_count + 1 > REQUEST_LIMIT then
    (MiddlewareResult.limited 429 limitMessage,
      ⟨(resetIfDue s now).request_count + 1, (resetIfDue s now).last_reset⟩)
  else
    (MiddlewareResult.forwarded,
      ⟨(resetIfDue s now).request_count + 1, (resetIfDue s now).last_reset⟩)

/-- Run a sequence of middleware passes; each event is a pair
`(now, path)`. -/
def runCalls (s : QuotaState) (events : List (Nat × String)) : QuotaState :=
  events.foldl (fun st e => (track_requests st e.1 e.2).2) s

/-- Every event in the sequence is admitted (forwarded to `call_next`). -/
def allAdmitted (s : QuotaState) : List (Nat × String) → Bool
  | [] => true
  | e :: rest =>
    decide ((track_requests s e.1 e.2).1 = MiddlewareResult.forwarded) &&
      allAdmitted (track_requests s e.1 e.2).2 rest

/-- The JSON object returned by the `home` route (src/main.py lines 60-68).
The source field named `documentation` is embedded as `docsLink`. -/
structure HomeResponse where
  message : String
  version : String
  docsLink : String
  requests_this_month : Nat
  monthly_limit : String
  rate_limit : String
  status : String
deriving DecidableEq

/-- The `home` status endpoint (src/main.py lines 58-68). It only reads
the globals, so it is embedded as returning its response together with
the unchanged quota state. -/
def home (s : QuotaState) : HomeResponse × QuotaState :=
  ({ message := "✅ CoinStats API is running!"
     version := "1.0.0"
     docsLink := "/docs"
     requests_this_month := s.request_count
     monthly_limit := "1,000,000 credits"
     rate_limit := "5 requests per second"
     status := "Free API plan with 1,000,000 credits per month" }, s)

/-- Raw outcome of the single network attempt inside the `try` block:
either an upstream HTTP response `(status_code, text)` or a
`requests.RequestException` transport fault carrying its description. -/
inductive NetResult where
  | response (statusCode : Nat) (body : String)
  | transportFailure (err : String)
deriving DecidableEq

/-- Result of `fetch_from_coinstats`: a returned 200 body (line 96), a
raised `HTTPException(status_code, detail)` (lines 99-111), or an uncaught
`ValueError` (line 91: raised inside `try` but not a
`requests.RequestException`, so the `except` clause does not catch it). -/
inductive FetchResult where
  | ok (body : String)
  | httpError (statusCode : Nat) (detail : String)
  | valueError (msg : String)
deriving DecidableEq

/-- ASCII `str.upper`, by code points. -/
def toUpperStr (s : String) : String :=
  String.mk (s.toList.map Char.toUpper)

/-- Python slicing `text[:200]` by code points. -/
def strTake (s : String) (n : Nat) : String :=
  String.mk (s.toList.take n)

/-- The status-code translation of src/main.py lines 95-108, shared by the
GET/POST/PATCH branches: 200 passes the body through; 400 re-raises with
the full `response.text` interpolated; 401 and 429 raise fixed messages;
every other status raises with `response.text[:200]`. -/
def translateStatus (statusCode : Nat) (body : String) : FetchResult :=
  if statusCode = 200 then FetchResult.ok body
  else if statusCode = 400 then
    FetchResult.httpError 400 ("❌ Bad Request: " ++ body)
  else if statusCode = 401 then
    FetchResult.httpError 401 "❌ Invalid API key or unauthorized access"
  else if statusCode = 429 then
    FetchResult.httpError 429
      "❌ Rate limit exceeded (5 requests per second). Please try again later."
  else
    FetchResult.httpError statusCode ("⚠ Unexpected Error: " ++ strTake body 200)

/-- `fetch_from_coinstats` (src/main.py lines 71-111), abstracted over the
raw outcome `net` of the one network attempt. When `method.upper()` is one
of GET/POST/PATCH the corresponding request is issued and its result
translated; a transport fault is caught by `except requests.RequestException`
and re-raised as `HTTPException(500, "❌ Connection Error: " + str(e))`
(lines 109-111). Any other method raises `ValueError` (line 91) before any
network call, and that exception is not caught. -/
def fetch_from_coinstats (method : String) (net : NetResult) : FetchResult :=
  if toUpperStr method = "GET" ∨ toUpperStr method = "POST" ∨
      toUpperStr method = "PATCH" then
    match net with
    | NetResult.response statusCode body => translateStatus statusCode body
    | NetResult.transportFailure e =>
        FetchResult.httpError 500 ("❌ Connection Error: " ++ e)
  else
    FetchResult.valueError ("Unsupported HTTP method: " ++ method)

/-- A 201-character upstream body, used to witness non-truncation. -/
def longBody : String := String.mk (List.replicate 201 'a')

/-- Helper: a non-exempt pass with no reset due increments the counter,
keeps the epoch, and forwards exactly when the incremented counter stays
within `REQUEST_LIMIT`. -/
theorem track_step_no_reset (s : QuotaState) (now : Nat) (path : String)
    (hex : isExempt path = false)
    (hres : ¬ now - s.last_reset > RESET_WINDOW) :
    track_requests s now path =
      ((if s.request_count + 1 > REQUEST_LIMIT then
          MiddlewareResult.limited 429 limitMessage
        else MiddlewareResult.forwarded),
        ⟨s.request_count + 1, s.last_reset⟩) := by
  unfold track_requests resetIfDue
  rw [if_neg hres, hex]
  simp only [Bool.false_eq_true, if_false]
  split <;> rfl

/-- Helper: under per-event non-exemption and no reset due (relative to the
initial epoch), a run of the middleware adds exactly one to the counter per
event, never touches the epoch, and admits every event whose incremented
counter stays within `REQUEST_LIMIT`. -/
theorem runCalls_no_reset (events : List (Nat × String)) : ∀ s : QuotaState,
    (∀ e ∈ events, isExempt e.2 = false ∧ ¬ e.1 - s.last_reset > RESET_WINDOW) →
    (runCalls s events).request_count = s.request_count + events.length ∧
      (runCalls s events).last_reset = s.last_reset ∧
      (s.request_count + events.length ≤ REQUEST_LIMIT →
        allAdmitted s events = true) := by
  induction events with
  | nil => intro s _; simp [runCalls, allAdmitted]
  | cons e rest ih =>
    intro s hev
    have he := hev e (List.mem_cons_self e rest)
    have hstep := track_step_no_reset s e.1 e.2 he.1 he.2
    have hrun : runCalls s (e :: rest) =
        runCalls (track_requests s e.1 e.2).2 rest := rfl
    have hstate : (track_requests s e.1 e.2).2 =
        ⟨s.request_count + 1, s.last_reset⟩ := by rw [hstep]
    have ihr := ih ⟨s.request_count + 1, s.last_reset⟩ (by
      intro e' he'
      exact hev e' (List.mem_cons_of_mem e he'))
    have ih1 : (runCalls ⟨s.request_count + 1, s.last_reset⟩ rest).request_count =
        s.request_count + 1 + rest.length := ihr.1
    have ih2 : (runCalls ⟨s.request_count + 1, s.last_reset⟩ rest).last_reset =
        s.last_reset := ihr.2.1
    have ih3 : s.request_count + 1 + rest.length ≤ REQUEST_LIMIT →
        allAdmitted ⟨s.request_count + 1, s.last_reset⟩ rest = true := ihr.2.2
    rw [hrun, hstate]
    refine ⟨?_, ih2, ?_⟩
    · simp only [List.length_cons]
      omega
    · intro hbound
      simp only [List.length_cons] at hbound
      have hadm : (track_requests s e.1 e.2).1 = MiddlewareResult.forwarded := by
        rw [hstep]
        rw [if_neg (by omega)]
      show (decide ((track_requests s e.1 e.2).1 = MiddlewareResult.forwarded) &&
        allAdmitted (track_requests s e.1 e.2).2 rest) = true
      rw [hadm, hstate]
      simp only [decide_eq_true_eq, Bool.and_eq_true]
      exact ⟨trivial, ih3 (by omega)⟩

/-- C1: starting from a zeroed counter, a sequence of `N` non-exempt calls
within one epoch (no reset due at any event) with `N < REQUEST_LIMIT` is
admitted in full and leaves the counter at exactly `N`: each admitted
forwarding call increments the counter by one, none lost or doubled. -/
theorem c1_admitted_calls_count_exactly (s : QuotaState)
    (events : List (Nat × String))
    (h0 : s.request_count = 0)
    (hev : ∀ e ∈ events, isExempt e.2 = false ∧
      ¬ e.1 - s.last_reset > RESET_WINDOW)
    (hlen : events.length < REQUEST_LIMIT) :
    (runCalls s events).request_count = events.length ∧
      allAdmitted s events = true := by
  have h := runCalls_no_reset events s hev
  exact ⟨by omega, h.2.2 (by omega)⟩

/-- Witness for C1 at a concrete two-call sequence. -/
theorem c1_witness :
    ((⟨0, 0⟩ : QuotaState).request_count = 0 ∧
      (isExempt "a" = false ∧ ¬ (3 : Nat) - 0 > RESET_WINDOW) ∧
      (isExempt "b" = false ∧ ¬ (7 : Nat) - 0 > RESET_WINDOW) ∧
      [((3 : Nat), "a"), (7, "b")].length < REQUEST_LIMIT) ∧
    (runCalls ⟨0, 0⟩ [((3 : Nat), "a"), (7, "b")]).request_count =
        [((3 : Nat), "a"), (7, "b")].length ∧
      allAdmitted ⟨0, 0⟩ [((3 : Nat), "a"), (7, "b")] = true :=
  ⟨⟨by decide, by decide, by decide, by decide⟩,
    c1_admitted_calls_count_exactly ⟨0, 0⟩ [((3 : Nat), "a"), (7, "b")]
      (by decide)
      (by intro e he; fin_cases he <;> exact ⟨by decide, by decide⟩)
      (by decide)⟩

/-- C2 counterexample: with `request_count = REQUEST_LIMIT` and no reset
due, the non-exempt call is denied (fixed 429) as the claim says, but the
counter is incremented to 950001 — it is not left unchanged. -/
theorem c2_counterexample :
    track_requests ⟨950000, 0⟩ 0 "x" =
      (MiddlewareResult.limited 429 limitMessage, ⟨950001, 0⟩) ∧
    (950001 : Nat) ≠ 950000 := by
  constructor
  · decide
  · decide

/-- C2 amended: with `request_count ≥ REQUEST_LIMIT`, no reset due and a
non-exempt path, the call is denied with the fixed 429 payload, but the
denied call still increments the counter by one (increment happens before
the limit check in src/main.py lines 43-46). -/
theorem c2_denied_still_increments (s : QuotaState) (now : Nat) (path : String)
    (hex : isExempt path = false)
    (hres : ¬ now - s.last_reset > RESET_WINDOW)
    (hcount : REQUEST_LIMIT ≤ s.request_count) :
    track_requests s now path =
      (MiddlewareResult.limited 429 limitMessage,
        ⟨s.request_count + 1, s.last_reset⟩) := by
  rw [track_step_no_reset s now path hex hres, if_pos (by omega)]

/-- Witness for C2 (amended) at a concrete over-quota state. -/
theorem c2_witness :
    (isExempt "y" = false ∧ ¬ (5 : Nat) - 3 > RESET_WINDOW ∧
      REQUEST_LIMIT ≤ 950123) ∧
    track_requests ⟨950123, 3⟩ 5 "y" =
      (MiddlewareResult.limited 429 limitMessage, ⟨950124, 3⟩) :=
  ⟨⟨by decide, by decide, by decide⟩,
    c2_denied_still_increments ⟨950123, 3⟩ 5 "y" (by decide) (by decide)
      (by decide)⟩

/-- C3: whenever the middleware does not forward a call to `call_next`
(the denied case), its result is exactly the local 429 payload with the
fixed explanatory message — the early return of src/main.py lines 47-50,
made before `call_next` and hence before any upstream work. -/
theorem c3_denied_is_local_429 (s : QuotaState) (now : Nat) (path : String)
    (h : (track_requests s now path).1 ≠ MiddlewareResult.forwarded) :
    (track_requests s now path).1 = MiddlewareResult.limited 429 limitMessage := by
  revert h
  unfold track_requests
  split
  · intro h; exact absurd rfl h
  · split
    · intro _; rfl
    · intro h; exact absurd rfl h

/-- Witness for C3 at a concrete denied call. -/
theorem c3_witness :
    (track_requests ⟨950000, 0⟩ 4 "w").1 ≠ MiddlewareResult.forwarded ∧
    (track_requests ⟨950000, 0⟩ 4 "w").1 =
      MiddlewareResult.limited 429 limitMessage :=
  ⟨by decide, c3_denied_is_local_429 ⟨950000, 0⟩ 4 "w" (by decide)⟩

/-- C4 counterexample: at the exact boundary `now − last_reset = 2592000`
the claim's `≥` condition holds, yet the code (strict `>`) performs no
reset: the counter is not zeroed, the epoch is not bumped, and the call is
denied rather than admitted. -/
theorem c4_counterexample :
    2592000 - (0 : Nat) ≥ RESET_WINDOW ∧
    track_requests ⟨950000, 0⟩ 2592000 "x" =
      (MiddlewareResult.limited 429 limitMessage, ⟨950001, 0⟩) := by
  constructor
  · decide
  · decide

/-- C4 amended: when strictly more than `RESET_WINDOW` seconds have
elapsed (`now − last_reset > 2592000`), the next non-exempt call first
resets the counter to 0 and the epoch to `now`, and is then itself
admitted (counter ends at 1, call forwarded). -/
theorem c4_reset_then_admit (s : QuotaState) (now : Nat) (path : String)
    (hres : now - s.last_reset > RESET_WINDOW)
    (hex : isExempt path = false) :
    track_requests s now path = (MiddlewareResult.forwarded, ⟨1, now⟩) := by
  unfold track_requests resetIfDue
  rw [if_pos hres, hex]
  simp only [Bool.false_eq_true, if_false]
  rw [if_neg (by decide : ¬ (0 : Nat) + 1 > REQUEST_LIMIT)]

/-- Witness for C4 (amended) at a concrete expired epoch. -/
theorem c4_witness :
    ((2592001 : Nat) - 0 > RESET_WINDOW ∧ isExempt "z" = false) ∧
    track_requests ⟨777, 0⟩ 2592001 "z" =
      (MiddlewareResult.forwarded, ⟨1, 2592001⟩) :=
  ⟨⟨by decide, by decide⟩,
    c4_reset_then_admit ⟨777, 0⟩ 2592001 "z" (by decide) (by decide)⟩

set_option maxRecDepth 4000 in
/-- C5 counterexample: for a 201-character upstream 400 body, the detail
interpolates the full `response.text` — it differs from any message built
from the 200-character truncation, so the message carries the untruncated
body, contrary to the claim. -/
theorem c5_counterexample :
    200 < longBody.toList.length ∧
    translateStatus 400 longBody =
      FetchResult.httpError 400 ("❌ Bad Request: " ++ longBody) ∧
    ("❌ Bad Request: " ++ longBody) ≠
      ("❌ Bad Request: " ++ strTake longBody 200) := by
  refine ⟨by decide, rfl, by decide⟩

/-- C5 amended: a 400 upstream result yields an `UpstreamRejected`
outcome with local status 400 whose message interpolates the full,
untruncated upstream body (`response.text`); truncation to 200 characters
applies only to the catch-all other-status branch. -/
theorem c5_bad_request_full_body (body : String) :
    translateStatus 400 body =
      FetchResult.httpError 400 ("❌ Bad Request: " ++ body) := rfl

/-- C6: a 401 upstream result yields an `UpstreamRejected` outcome with
local status 401 and the fixed invalid/unauthorized message, for every
upstream body: the body is discarded and the message never depends on it. -/
theorem c6_unauthorized_fixed_message (body : String) :
    translateStatus 401 body =
      FetchResult.httpError 401 "❌ Invalid API key or unauthorized access" := rfl

/-- C7: for every supported method (after upper-casing) and every
transport-level fault, the forwarding helper produces the 500 outcome
whose detail is the fixed prefix followed by the underlying fault
description (src/main.py lines 109-111). -/
theorem c7_transport_failure_500 (method e : String)
    (h : toUpperStr method = "GET" ∨ toUpperStr method = "POST" ∨
      toUpperStr method = "PATCH") :
    fetch_from_coinstats method (NetResult.transportFailure e) =
      FetchResult.httpError 500 ("❌ Connection Error: " ++ e) := by
  unfold fetch_from_coinstats
  rw [if_pos h]

/-- Witness for C7 at a lower-case method and a concrete fault. -/
theorem c7_witness :
    (toUpperStr "get" = "GET" ∨ toUpperStr "get" = "POST" ∨
      toUpperStr "get" = "PATCH") ∧
    fetch_from_coinstats "get" (NetResult.transportFailure "connection refused") =
      FetchResult.httpError 500 ("❌ Connection Error: " ++ "connection refused") :=
  ⟨Or.inl (by decide),
    c7_transport_failure_500 "get" "connection refused" (Or.inl (by decide))⟩

/-- C8 counterexample: the status endpoint's `monthly_limit` field is the
hardcoded string "1,000,000 credits"; it contains no digit 9 at all, so it
cannot render the `REQUEST_LIMIT` value 950000 actually in effect. -/
theorem c8_counterexample :
    (home ⟨0, 0⟩).1.monthly_limit = "1,000,000 credits" ∧
    REQUEST_LIMIT = 950000 ∧
    ¬ ('9' ∈ (home ⟨0, 0⟩).1.monthly_limit.toList) := by
  refine ⟨rfl, rfl, by decide⟩

/-- C8 amended: the status endpoint returns the current quota count and a
hardcoded "1,000,000 credits" monthly-limit label (the advertised plan
size, not the `REQUEST_LIMIT` of 950000 in effect), and it has no side
effects: the quota state comes back unchanged. -/
theorem c8_status_read_only (s : QuotaState) :
    (home s).1.requests_this_month = s.request_count ∧
    (home s).1.monthly_limit = "1,000,000 credits" ∧
    (home s).2 = s :=
  ⟨rfl, rfl, rfl⟩

/-- C9: over every operation, the counter never decreases except through a
full reset: the status read leaves the state untouched, and a middleware
pass either keeps the counter non-decreasing (no reset due) or — exactly
when strictly more than the window has elapsed — zeroes it, after which
the same pass adds at most its own increment. -/
theorem c9_count_monotone (s : QuotaState) (now : Nat) (path : String) :
    (home s).2 = s ∧
    ((track_requests s now path).2.request_count ≥ s.request_count ∨
      (now - s.last_reset > RESET_WINDOW ∧
        (track_requests s now path).2.request_count ≤ 1)) := by
  refine ⟨rfl, ?_⟩
  by_cases hres : now - s.last_reset > RESET_WINDOW
  · right
    refine ⟨hres, ?_⟩
    unfold track_requests resetIfDue
    rw [if_pos hres]
    split
    · exact Nat.zero_le 1
    · split
      · exact Nat.le_refl 1
      · exact Nat.le_refl 1
  · left
    unfold track_requests resetIfDue
    rw [if_neg hres]
    split
    · exact Nat.le_refl _
    · split
      · exact Nat.le_succ _
      · exact Nat.le_succ _

/-- C10: for every method whose upper-casing is none of GET, POST, PATCH,
the helper raises `ValueError` (which the `except requests.RequestException`
clause does not catch), and for no raw network outcome does it produce the
500 connection-error translation. -/
theorem c10_unsupported_method_value_error (method : String) (net : NetResult)
    (h1 : toUpperStr method ≠ "GET") (h2 : toUpperStr method ≠ "POST")
    (h3 : toUpperStr method ≠ "PATCH") :
    fetch_from_coinstats method net =
      FetchResult.valueError ("Unsupported HTTP method: " ++ method) ∧
    ∀ d, fetch_from_coinstats method net ≠ FetchResult.httpError 500 d := by
  have hnot : ¬ (toUpperStr method = "GET" ∨ toUpperStr method = "POST" ∨
      toUpperStr method = "PATCH") := by
    intro hor
    rcases hor with h | h | h
    · exact h1 h
    · exact h2 h
    · exact h3 h
  unfold fetch_from_coinstats
  rw [if_neg hnot]
  exact ⟨rfl, fun d hcontra => FetchResult.noConfusion hcontra⟩

/-- Witness for C10 at method "DELETE" over a transport fault. -/
theorem c10_witness :
    (toUpperStr "DELETE" ≠ "GET" ∧ toUpperStr "DELETE" ≠ "POST" ∧
      toUpperStr "DELETE" ≠ "PATCH") ∧
    fetch_from_coinstats "DELETE" (NetResult.transportFailure "refused") =
      FetchResult.valueError ("Unsupported HTTP method: " ++ "DELETE") ∧
    fetch_from_coinstats "DELETE" (NetResult.transportFailure "refused") ≠
      FetchResult.httpError 500 "❌ Connection Error: refused" :=
  ⟨⟨by decide, by decide, by decide⟩,
    (c10_unsupported_method_value_error "DELETE" (NetResult.transportFailure "refused")
      (by decide) (by decide) (by decide)).1,
    (c10_unsupported_method_value_error "DELETE" (NetResult.transportFailure "refused")
      (by decide) (by decide) (by decide)).2 "❌ Connection Error: refused"⟩
